import Mathlib

/-!
Verification development for `template_helpers.py` of gemini-business2api.

The module prepares view data for the admin dashboard: it classifies each
account into a display status (label, colors, opacity, action buttons),
resolves the base URL of the current request, counts error-level log
records, derives API endpoint strings from a path prefix, and assembles
the account table rows.

All definitions below are shallow embeddings of the Python source.
-/

namespace TemplateHelpers

/-- Read-only signals of one account, as consumed by `_get_account_status`
and the row builder in `prepare_admin_template_data`.  The fields
`expire_status_text` and `expire_display` are the outputs of the external
formatter `format_account_expiration(remaining_hours)` (module
`core.account`, outside this repository), so they appear here as inputs. -/
structure AccountSignals where
  account_id : String
  disabled : Bool
  is_expired : Bool
  expires_at : Option String
  cooldown_seconds : Int
  cooldown_reason : String
  is_available : Bool
  expire_status_text : String
  expire_display : String
  conversation_count : Nat
deriving Repr, DecidableEq

/-- The record returned by `_get_account_status` (the Python dict keys
`status_text`, `status_color`, `dot_color`, `row_opacity`,
`action_buttons`, `expire_display`; `config_obj` is represented by the
`account_id` field the row template reads from it). -/
structure AccountStatus where
  status_text : String
  status_color : String
  dot_color : String
  row_opacity : String
  action_buttons : String
  expire_display : String
  account_id : String
deriving Repr, DecidableEq

/-- The delete-only action button HTML of the `is_expired` branch. -/
def deleteBtn (id : String) : String :=
  "<button onclick=\"deleteAccount(\x27" ++ id ++
    "\x27)\" class=\"btn-sm btn-delete\" title=\"删除\">删除</button>"

/-- The enable+delete action buttons HTML (triple-quoted f-string of the
`is_disabled` and `cooldown_seconds == -1` branches). -/
def enableDeleteBtns (id : String) : String :=
  "\n            <button onclick=\"enableAccount(\x27" ++ id ++
    "\x27)\" class=\"btn-sm btn-enable\" title=\"启用\">启用</button>\n            <button onclick=\"deleteAccount(\x27" ++ id ++
    "\x27)\" class=\"btn-sm btn-delete\" title=\"删除\">删除</button>\n        "

/-- The disable+delete action buttons HTML (triple-quoted f-string of the
`cooldown_seconds > 0` branch and the final `else` branch). -/
def disableDeleteBtns (id : String) : String :=
  "\n            <button onclick=\"disableAccount(\x27" ++ id ++
    "\x27)\" class=\"btn-sm btn-disable\" title=\"禁用\">禁用</button>\n            <button onclick=\"deleteAccount(\x27" ++ id ++
    "\x27)\" class=\"btn-sm btn-delete\" title=\"删除\">删除</button>\n        "

/-- Embedding of `_get_account_status` (src/template_helpers.py lines
23-98): the if/elif chain over `is_expired`, `disabled`,
`cooldown_seconds == -1`, `cooldown_seconds > 0`, and finally
`is_available` with the sub-cases on `expire_status_text`. -/
def getAccountStatus (a : AccountSignals) : AccountStatus :=
  if a.is_expired then
    { status_text := "过期禁用", status_color := "#9e9e9e", dot_color := "#9e9e9e",
      row_opacity := "0.5", action_buttons := deleteBtn a.account_id,
      expire_display := a.expire_display, account_id := a.account_id }
  else if a.disabled then
    { status_text := "手动禁用", status_color := "#9e9e9e", dot_color := "#9e9e9e",
      row_opacity := "0.5", action_buttons := enableDeleteBtns a.account_id,
      expire_display := a.expire_display, account_id := a.account_id }
  else if a.cooldown_seconds = -1 then
    { status_text := a.cooldown_reason, status_color := "#f44336", dot_color := "#f44336",
      row_opacity := "0.5", action_buttons := enableDeleteBtns a.account_id,
      expire_display := a.expire_display, account_id := a.account_id }
  else if a.cooldown_seconds > 0 then
    { status_text := a.cooldown_reason ++ " (" ++ toString a.cooldown_seconds ++ "s)",
      status_color := "#ff9800", dot_color := "#ff9800",
      row_opacity := "1", action_buttons := disableDeleteBtns a.account_id,
      expire_display := a.expire_display, account_id := a.account_id }
  else if a.is_available then
    { status_text := a.expire_status_text,
      status_color :=
        if a.expire_status_text = "正常" then "#4caf50"
        else if a.expire_status_text = "即将过期" then "#ff9800"
        else "#f44336",
      dot_color :=
        if a.expire_status_text = "正常" then "#34c759"
        else if a.expire_status_text = "即将过期" then "#ff9800"
        else "#f44336",
      row_opacity := "1", action_buttons := disableDeleteBtns a.account_id,
      expire_display := a.expire_display, account_id := a.account_id }
  else
    { status_text := "不可用", status_color := "#f44336", dot_color := "#ff3b30",
      row_opacity := "1", action_buttons := disableDeleteBtns a.account_id,
      expire_display := a.expire_display, account_id := a.account_id }

/-- The six display states of the spec (§3, §4.1).  The Python code has no
explicit state value; this tag names which branch of the
`_get_account_status` chain fires. -/
inductive DisplayState where
  | Expired
  | ManuallyDisabled
  | Banned
  | Cooldown
  | Healthy
  | Unhealthy
deriving Repr, DecidableEq

/-- Which branch of the `_get_account_status` if/elif chain fires, named
with the spec's display states: same conditions, same order, as
`getAccountStatus`. -/
def displayState (a : AccountSignals) : DisplayState :=
  if a.is_expired then .Expired
  else if a.disabled then .ManuallyDisabled
  else if a.cooldown_seconds = -1 then .Banned
  else if a.cooldown_seconds > 0 then .Cooldown
  else if a.is_available then .Healthy
  else .Unhealthy

/-- The administrative actions whose buttons can appear in
`action_buttons`. -/
inductive AdminAction where
  | enable
  | disable
  | delete
deriving Repr, DecidableEq

/-- The set of action buttons emitted by each branch of
`_get_account_status`: the `is_expired` branch emits only the delete
button; the `disabled` and `cooldown_seconds == -1` branches emit
enable+delete; the `cooldown_seconds > 0` branch and the final branch
emit disable+delete. -/
def permittedActions (a : AccountSignals) : List AdminAction :=
  if a.is_expired then [.delete]
  else if a.disabled then [.enable, .delete]
  else if a.cooldown_seconds = -1 then [.enable, .delete]
  else if a.cooldown_seconds > 0 then [.disable, .delete]
  else [.disable, .delete]

/-- Python `str.rstrip("/")`: remove all trailing slash characters. -/
def rstripSlash (s : String) : String :=
  String.mk ((s.data.reverse.dropWhile (fun c => c = '/')).reverse)

/-- Python `x or default` for an optional string field: `None` and the
empty string both fall back to the default. -/
def pyOr (x : Option String) (d : String) : String :=
  match x with
  | some s => if s = "" then d else s
  | none => d

/-- Lookup in the style of `dict.get` over a header mapping modelled as an association list. -/
def hget (hs : List (String × String)) (k : String) : Option String :=
  (hs.find? (fun p => p.1 = k)).map Prod.snd

/-- The request object: `headers` (with `.get` lookup) and `url.scheme`. -/
structure Request where
  headers : List (String × String)
  scheme : String
deriving Repr

/-- Embedding of `get_base_url_from_request` (src/template_helpers.py
lines 10-20): a non-empty configured `base_url` is returned with trailing
slashes stripped; otherwise the scheme comes from the `x-forwarded-proto`
header with the request scheme as default, and the host from
`x-forwarded-host` with the `host` header as default (a missing host ends
up rendered as Python's `None`). -/
def get_base_url_from_request (base_url : String) (req : Request) : String :=
  if base_url ≠ "" then rstripSlash base_url
  else
    let forwarded_proto := (hget req.headers "x-forwarded-proto").getD req.scheme
    let forwarded_host :=
      match hget req.headers "x-forwarded-host" with
      | some h => h
      | none =>
        match hget req.headers "host" with
        | some h => h
        | none => "None"
    forwarded_proto ++ "://" ++ forwarded_host

/-- A log record's `level` field as seen through `log.get("level")`:
`none` when the record has no such field. -/
def levelIsError (level : Option String) : Bool :=
  level = some "ERROR" || level = some "CRITICAL"

/-- Embedding of the error-count loop of `prepare_admin_template_data`
(src/template_helpers.py lines 112-116): count the records whose `level`
is in `["ERROR", "CRITICAL"]`. -/
def errorCount : List (Option String) → Nat
  | [] => 0
  | l :: rest => (if levelIsError l then 1 else 0) + errorCount rest

/-- Embedding of `api_path_segment` (line 155): the prefix with a trailing slash when
the prefix is non-empty (truthy), else the empty string. -/
def api_path_segment (path_pfx : String) : String :=
  if path_pfx ≠ "" then path_pfx ++ "/" else ""

/-- Embedding of `admin_path_segment` (line 154): the prefix itself when non-empty,
else the literal fallback "admin". -/
def admin_path_segment (path_pfx : String) : String :=
  if path_pfx ≠ "" then path_pfx else "admin"

/-- Embedding of `api_base_url` (line 158): `current_url` when the API path segment is
empty (falsy), else `current_url` + "/" + the segment with trailing
slashes stripped. -/
def api_base_url (current_url path_pfx : String) : String :=
  if api_path_segment path_pfx ≠ "" then
    current_url ++ "/" ++ rstripSlash (api_path_segment path_pfx)
  else current_url

/-- Embedding of `api_base_v1` (line 159). -/
def api_base_v1 (current_url path_pfx : String) : String :=
  current_url ++ "/" ++ api_path_segment path_pfx ++ "v1"

/-- Embedding of `api_endpoint` (line 160). -/
def api_endpoint (current_url path_pfx : String) : String :=
  current_url ++ "/" ++ api_path_segment path_pfx ++ "v1/chat/completions"

/-- One `<tr>` row of the account table (the f-string of
src/template_helpers.py lines 170-196), built from the
`_get_account_status` result and the account's `expires_at` and
`conversation_count`. -/
def renderAccountRow (a : AccountSignals) : String :=
  let status := getAccountStatus a
  "\n            <tr style=\"opacity: " ++ status.row_opacity ++
    ";\">\n                <td data-label=\"账号ID\">\n                    <div style=\"display: flex; align-items: center; gap: 8px;\">\n                        <span class=\"status-dot\" style=\"background-color: " ++
    status.dot_color ++
    ";\"></span>\n                        <span style=\"font-weight: 600;\">" ++
    status.account_id ++
    "</span>\n                    </div>\n                </td>\n                <td data-label=\"状态\">\n                    <span style=\"color: " ++
    status.status_color ++ "; font-weight: 600; font-size: 12px;\">" ++
    status.status_text ++
    "</span>\n                </td>\n                <td data-label=\"过期时间\">\n                    <span class=\"font-mono\" style=\"font-size: 11px; color: #6b6b6b;\">" ++
    pyOr a.expires_at "未设置" ++
    "</span>\n                </td>\n                <td data-label=\"剩余时长\">\n                    <span style=\"color: " ++
    status.status_color ++ "; font-weight: 500; font-size: 12px;\">" ++
    status.expire_display ++
    "</span>\n                </td>\n                <td data-label=\"累计对话\">\n                    <span style=\"color: #2563eb; font-weight: 600;\">" ++
    toString a.conversation_count ++
    "</span>\n                </td>\n                <td data-label=\"操作\">\n                    <div style=\"display: flex; gap: 6px;\">\n                        " ++
    status.action_buttons ++
    "\n                    </div>\n                </td>\n            </tr>\n        "

/-- The `accounts_rows` accumulator (lines 163-196): starting from the
empty string, the loop appends one rendered row per account in
pool-iteration order. -/
def accountsRows : List AccountSignals → String
  | [] => ""
  | a :: rest => renderAccountRow a ++ accountsRows rest

/-- The placeholder row used when `accounts_rows` is empty (line 212). -/
def emptyRowPlaceholder : String :=
  "<tr><td colspan=\"6\" style=\"text-align: center; color: #6b6b6b; padding: 24px;\">暂无账户</td></tr>"

/-- The `<tbody>` content of `accounts_html` (line 212):
`accounts_rows if accounts_rows else placeholder`. -/
def tbodyContent (accounts : List AccountSignals) : String :=
  if accountsRows accounts ≠ "" then accountsRows accounts
  else emptyRowPlaceholder

/-- A concrete account signal value used to instantiate theorems with
hypotheses. -/
def sampleSignals : AccountSignals :=
  { account_id := "acc-1", disabled := false, is_expired := false,
    expires_at := some "2026-01-01 00:00:00", cooldown_seconds := 0,
    cooldown_reason := "", is_available := true,
    expire_status_text := "正常", expire_display := "72.0h",
    conversation_count := 3 }

/-- C1: for every `AccountSignals` input, the classification is a total
function into exactly one `DisplayState`, characterized by the fixed
priority chain `is_expired`, then `disabled`, then
`cooldown_seconds == -1`, then `cooldown_seconds > 0`, then
`is_available`: each state holds if and only if its branch is the first
one whose condition is true, so no input yields two states. -/
theorem C1_classify_total_priority (a : AccountSignals) :
    (displayState a = .Expired ↔ a.is_expired = true)
    ∧ (displayState a = .ManuallyDisabled ↔
        a.is_expired = false ∧ a.disabled = true)
    ∧ (displayState a = .Banned ↔
        a.is_expired = false ∧ a.disabled = false ∧ a.cooldown_seconds = -1)
    ∧ (displayState a = .Cooldown ↔
        a.is_expired = false ∧ a.disabled = false ∧
        a.cooldown_seconds ≠ -1 ∧ a.cooldown_seconds > 0)
    ∧ (displayState a = .Healthy ↔
        a.is_expired = false ∧ a.disabled = false ∧
        a.cooldown_seconds ≠ -1 ∧ ¬ a.cooldown_seconds > 0 ∧
        a.is_available = true)
    ∧ (displayState a = .Unhealthy ↔
        a.is_expired = false ∧ a.disabled = false ∧
        a.cooldown_seconds ≠ -1 ∧ ¬ a.cooldown_seconds > 0 ∧
        a.is_available = false) := by
  unfold displayState
  split_ifs with h1 h2 h3 h4 h5 <;> simp_all

/-- C2: an account with `is_expired = true`, `cooldown_seconds = -1` and
`disabled = true` classifies as Expired (label "过期禁用", neutral gray
status and dot colors `#9e9e9e`, reduced opacity `0.5`, permitted actions
delete only), never Banned or ManuallyDisabled. -/
theorem C2_expired_dominates (a : AccountSignals)
    (hexp : a.is_expired = true) (hcd : a.cooldown_seconds = -1)
    (hdis : a.disabled = true) :
    displayState a = .Expired
    ∧ displayState a ≠ .Banned
    ∧ displayState a ≠ .ManuallyDisabled
    ∧ (getAccountStatus a).status_text = "过期禁用"
    ∧ (getAccountStatus a).status_color = "#9e9e9e"
    ∧ (getAccountStatus a).dot_color = "#9e9e9e"
    ∧ (getAccountStatus a).row_opacity = "0.5"
    ∧ permittedActions a = [.delete] := by
  simp [displayState, getAccountStatus, permittedActions, hexp]

/-- C2 witness: the theorem applied to a concrete signal that is expired,
permanently cooled down and disabled at once. -/
theorem C2_expired_dominates_witness :
    displayState { sampleSignals with
        is_expired := true, cooldown_seconds := -1, disabled := true } =
      .Expired
    ∧ permittedActions { sampleSignals with
        is_expired := true, cooldown_seconds := -1, disabled := true } =
      [.delete] := by
  have h := C2_expired_dominates
    { sampleSignals with
        is_expired := true, cooldown_seconds := -1, disabled := true }
    rfl rfl rfl
  exact ⟨h.1, h.2.2.2.2.2.2.2⟩

/-- C3: with `is_expired = false`, `disabled = false` and
`cooldown_seconds > 0`, the label is exactly `cooldown_reason` followed
by " (", the seconds, and "s)", with warning-amber `#ff9800` status and
dot colors, full opacity `1`, and permitted actions disable+delete; in
particular seconds 45 with reason "rate limited" yields exactly
"rate limited (45s)". -/
theorem C3_cooldown_label (a : AccountSignals)
    (h1 : a.is_expired = false) (h2 : a.disabled = false)
    (h3 : a.cooldown_seconds > 0) :
    (getAccountStatus a).status_text =
      a.cooldown_reason ++ " (" ++ toString a.cooldown_seconds ++ "s)"
    ∧ (getAccountStatus a).status_color = "#ff9800"
    ∧ (getAccountStatus a).dot_color = "#ff9800"
    ∧ (getAccountStatus a).row_opacity = "1"
    ∧ permittedActions a = [.disable, .delete]
    ∧ displayState a = .Cooldown
    ∧ (getAccountStatus { sampleSignals with
          cooldown_seconds := 45,
          cooldown_reason := "rate limited" }).status_text =
        "rate limited (45s)" := by
  have hne : a.cooldown_seconds ≠ -1 := by omega
  refine ⟨?_, ?_, ?_, ?_, ?_, ?_, rfl⟩ <;>
    simp [getAccountStatus, permittedActions, displayState, h1, h2, h3, hne]

/-- C3 witness: the theorem applied to the concrete 45-second
"rate limited" cooldown signal. -/
theorem C3_cooldown_label_witness :
    (getAccountStatus { sampleSignals with
        cooldown_seconds := 45, cooldown_reason := "rate limited" }).status_text =
      "rate limited (45s)"
    ∧ permittedActions { sampleSignals with
        cooldown_seconds := 45, cooldown_reason := "rate limited" } =
      [.disable, .delete] := by
  have h := C3_cooldown_label
    { sampleSignals with
        cooldown_seconds := 45, cooldown_reason := "rate limited" }
    rfl rfl (by decide)
  exact ⟨h.1, h.2.2.2.2.1⟩

/-- C10: every branch of `_get_account_status` emits a delete button:
the permitted-action set always contains delete, in every display
state. -/
theorem C10_delete_always_permitted (a : AccountSignals) :
    AdminAction.delete ∈ permittedActions a := by
  unfold permittedActions
  split_ifs <;> simp

/-- C4: in the final branch (`is_expired = false`, `disabled = false`,
`cooldown_seconds = 0`): with `is_available = true` and
`expire_status_text = "正常"` the label is "正常" with success green
`#4caf50` status color and a distinct success green `#34c759` dot color,
full opacity and disable+delete actions; with any `expire_status_text`
other than "正常" and "即将过期" the label is that text and both colors
are danger red `#f44336`; with `is_available = false` the label is
"不可用" with danger red `#f44336` status color and a distinct red
`#ff3b30` dot shade. -/
theorem C4_healthy_and_unavailable :
    (∀ a : AccountSignals, a.is_expired = false → a.disabled = false →
      a.cooldown_seconds = 0 → a.is_available = true →
      a.expire_status_text = "正常" →
      (getAccountStatus a).status_text = "正常"
      ∧ (getAccountStatus a).status_color = "#4caf50"
      ∧ (getAccountStatus a).dot_color = "#34c759"
      ∧ (getAccountStatus a).status_color ≠ (getAccountStatus a).dot_color
      ∧ (getAccountStatus a).row_opacity = "1"
      ∧ permittedActions a = [.disable, .delete])
    ∧ (∀ a : AccountSignals, a.is_expired = false → a.disabled = false →
      a.cooldown_seconds = 0 → a.is_available = true →
      a.expire_status_text ≠ "正常" → a.expire_status_text ≠ "即将过期" →
      (getAccountStatus a).status_text = a.expire_status_text
      ∧ (getAccountStatus a).status_color = "#f44336"
      ∧ (getAccountStatus a).dot_color = "#f44336")
    ∧ (∀ a : AccountSignals, a.is_expired = false → a.disabled = false →
      a.cooldown_seconds = 0 → a.is_available = false →
      (getAccountStatus a).status_text = "不可用"
      ∧ (getAccountStatus a).status_color = "#f44336"
      ∧ (getAccountStatus a).dot_color = "#ff3b30"
      ∧ (getAccountStatus a).status_color ≠ (getAccountStatus a).dot_color
      ∧ (getAccountStatus a).row_opacity = "1"
      ∧ permittedActions a = [.disable, .delete]) := by
  refine ⟨?_, ?_, ?_⟩
  · intro a h1 h2 h3 h4 h5
    have hc : (getAccountStatus a).status_color = "#4caf50" := by
      simp [getAccountStatus, h1, h2, h3, h4, h5]
    have hd : (getAccountStatus a).dot_color = "#34c759" := by
      simp [getAccountStatus, h1, h2, h3, h4, h5]
    refine ⟨by simp [getAccountStatus, h1, h2, h3, h4, h5], hc, hd, ?_,
      by simp [getAccountStatus, h1, h2, h3, h4],
      by simp [permittedActions, h1, h2, h3]⟩
    rw [hc, hd]
    decide
  · intro a h1 h2 h3 h4 h5 h6
    refine ⟨?_, ?_, ?_⟩ <;> simp [getAccountStatus, h1, h2, h3, h4, h5, h6]
  · intro a h1 h2 h3 h4
    have hc : (getAccountStatus a).status_color = "#f44336" := by
      simp [getAccountStatus, h1, h2, h3, h4]
    have hd : (getAccountStatus a).dot_color = "#ff3b30" := by
      simp [getAccountStatus, h1, h2, h3, h4]
    refine ⟨by simp [getAccountStatus, h1, h2, h3, h4], hc, hd, ?_,
      by simp [getAccountStatus, h1, h2, h3, h4],
      by simp [permittedActions, h1, h2, h3]⟩
    rw [hc, hd]
    decide

/-- C4 witness: the three parts applied to concrete healthy, critical
expiration text, and unavailable signals. -/
theorem C4_healthy_and_unavailable_witness :
    ((getAccountStatus sampleSignals).status_text = "正常"
      ∧ (getAccountStatus sampleSignals).status_color = "#4caf50"
      ∧ (getAccountStatus sampleSignals).dot_color = "#34c759")
    ∧ (getAccountStatus { sampleSignals with
        expire_status_text := "已过期" }).status_color = "#f44336"
    ∧ (getAccountStatus { sampleSignals with
        is_available := false }).status_text = "不可用" := by
  have h1 := C4_healthy_and_unavailable.1 sampleSignals rfl rfl rfl rfl rfl
  have h2 := C4_healthy_and_unavailable.2.1
    { sampleSignals with expire_status_text := "已过期" }
    rfl rfl rfl rfl (by decide) (by decide)
  have h3 := C4_healthy_and_unavailable.2.2
    { sampleSignals with is_available := false } rfl rfl rfl rfl
  exact ⟨⟨h1.1, h1.2.1, h1.2.2.1⟩, h2.2.1, h3.1⟩

/-- C5: base URL resolution: a non-empty configured `base_url` is
returned verbatim with trailing slashes stripped; otherwise the result is
`scheme://host` where the scheme is the `x-forwarded-proto` header when
present and the request scheme otherwise, and the host is the
`x-forwarded-host` header when present and the `host` header otherwise;
in particular with empty `base_url`, request scheme `http`,
`x-forwarded-proto: https`, `x-forwarded-host: api.example.com` and
`host: internal:8080`, the result is exactly "https://api.example.com". -/
theorem C5_base_url_resolution :
    (∀ (bu : String) (req : Request), bu ≠ "" →
      get_base_url_from_request bu req = rstripSlash bu)
    ∧ (∀ (req : Request) (proto hostv : String),
      (hget req.headers "x-forwarded-proto" = some proto ∨
        (hget req.headers "x-forwarded-proto" = none ∧ proto = req.scheme)) →
      (hget req.headers "x-forwarded-host" = some hostv ∨
        (hget req.headers "x-forwarded-host" = none ∧
          hget req.headers "host" = some hostv)) →
      get_base_url_from_request "" req = proto ++ "://" ++ hostv)
    ∧ get_base_url_from_request ""
        { headers := [("x-forwarded-proto", "https"),
            ("x-forwarded-host", "api.example.com"),
            ("host", "internal:8080")],
          scheme := "http" } = "https://api.example.com" := by
  refine ⟨?_, ?_, rfl⟩
  · intro bu req hbu
    simp [get_base_url_from_request, hbu]
  · intro req proto hostv hproto hhost
    rcases hproto with hp | ⟨hp, hps⟩ <;> rcases hhost with hh | ⟨hh, hhh⟩
    · simp [get_base_url_from_request, hp, hh]
    · simp [get_base_url_from_request, hp, hh, hhh]
    · subst hps
      simp [get_base_url_from_request, hp, hh]
    · subst hps
      simp [get_base_url_from_request, hp, hh, hhh]

/-- C5 witness: the general parts applied to the concrete reverse-proxy
request of the claim. -/
theorem C5_base_url_resolution_witness :
    get_base_url_from_request "https://cfg.example.com/"
      { headers := [], scheme := "http" } = "https://cfg.example.com"
    ∧ get_base_url_from_request ""
        { headers := [("x-forwarded-proto", "https"),
            ("x-forwarded-host", "api.example.com"),
            ("host", "internal:8080")],
          scheme := "http" } = "https://api.example.com" := by
  have h1 := C5_base_url_resolution.1 "https://cfg.example.com/"
    { headers := [], scheme := "http" } (by decide)
  have h2 := C5_base_url_resolution.2.1
    { headers := [("x-forwarded-proto", "https"),
        ("x-forwarded-host", "api.example.com"),
        ("host", "internal:8080")],
      scheme := "http" } "https" "api.example.com"
    (Or.inl (by decide)) (Or.inl (by decide))
  exact ⟨h1.trans (by decide), h2⟩

/-- C6: the error count equals the number of log records whose `level`
is "ERROR" or "CRITICAL"; a record with no `level` field contributes
nothing; and the sample buffer
`[INFO, ERROR, WARNING, CRITICAL, ERROR]` yields count 3. -/
theorem C6_error_count_aggregation :
    (∀ logs : List (Option String),
      errorCount logs =
        logs.countP (fun l => decide (l = some "ERROR" ∨ l = some "CRITICAL")))
    ∧ (∀ logs : List (Option String),
      errorCount ((none : Option String) :: logs) = errorCount logs)
    ∧ errorCount [some "INFO", some "ERROR", some "WARNING",
        some "CRITICAL", some "ERROR"] = 3 := by
  refine ⟨?_, ?_, by decide⟩
  · intro logs
    induction logs with
    | nil => rfl
    | cons l rest ih =>
      by_cases hE : l = some "ERROR" <;> by_cases hC : l = some "CRITICAL" <;>
        simp [errorCount, List.countP_cons, ih, levelIsError, hE, hC] <;>
        omega
  · intro logs
    simp [errorCount, levelIsError]

/-- C8: error-level matching is exact and case-sensitive: a record whose
`level` is any string other than exactly "ERROR" or "CRITICAL" does not
count toward the error tally; in particular "error" and "Critical" do
not match. -/
theorem C8_error_level_case_sensitive :
    (∀ (l : String) (logs : List (Option String)),
      l ≠ "ERROR" → l ≠ "CRITICAL" →
      errorCount (some l :: logs) = errorCount logs)
    ∧ levelIsError (some "error") = false
    ∧ levelIsError (some "Critical") = false := by
  refine ⟨?_, rfl, rfl⟩
  intro l logs h1 h2
  simp [errorCount, levelIsError, h1, h2]

/-- C8 witness: the theorem applied to the lowercase level "error". -/
theorem C8_error_level_case_sensitive_witness :
    errorCount [some "error"] = errorCount [] :=
  C8_error_level_case_sensitive.1 "error" [] (by decide) (by decide)

/-- Folding string append from any accumulator is the accumulator
followed by the join of the list. -/
theorem foldl_append_eq_join (l : List String) (s : String) :
    l.foldl (fun r t => r ++ t) s = s ++ String.join l := by
  induction l generalizing s with
  | nil =>
    show s = s ++ String.join []
    rw [show String.join [] = "" from rfl, String.append_empty]
  | cons x xs ih =>
    rw [List.foldl_cons, ih]
    have hj : String.join (x :: xs) = x ++ String.join xs := by
      show List.foldl (fun r t => r ++ t) "" (x :: xs) = _
      rw [List.foldl_cons, ih]
      rfl
    rw [hj, String.append_assoc]

/-- Joining a cons of strings peels off the head. -/
theorem join_cons (s : String) (l : List String) :
    String.join (s :: l) = s ++ String.join l := by
  show List.foldl (fun r t => r ++ t) "" (s :: l) = _
  rw [List.foldl_cons, foldl_append_eq_join]
  rfl

/-- A rendered account row is never the empty string (it starts with the
literal row opening). -/
theorem renderAccountRow_ne_empty (a : AccountSignals) :
    renderAccountRow a ≠ "" := by
  intro h
  have hlen := congrArg String.length h
  simp only [renderAccountRow, String.length_append] at hlen
  have hpre : ("\n            <tr style=\"opacity: " : String).length = 33 := by
    decide
  have h0 : ("" : String).length = 0 := by decide
  omega

/-- The concatenated rows of a non-empty pool form a non-empty string. -/
theorem accountsRows_cons_ne_empty (a : AccountSignals)
    (rest : List AccountSignals) : accountsRows (a :: rest) ≠ "" := by
  intro h
  have hlen := congrArg String.length h
  simp only [accountsRows, String.length_append] at hlen
  have h0 : ("" : String).length = 0 := by decide
  have hr : 1 ≤ (renderAccountRow a).length := by
    simp only [renderAccountRow, String.length_append]
    have hpre : ("\n            <tr style=\"opacity: " : String).length = 33 := by
      decide
    omega
  omega

/-- C7: with zero accounts the table body is exactly the single
placeholder row "暂无账户", not empty and not a failure; with a non-empty
pool the body is the concatenation of one rendered row per account in
pool-iteration order, with no re-sorting. -/
theorem C7_empty_pool_placeholder :
    tbodyContent [] = emptyRowPlaceholder
    ∧ (∀ accounts : List AccountSignals, accounts ≠ [] →
      tbodyContent accounts = String.join (accounts.map renderAccountRow)) := by
  refine ⟨rfl, ?_⟩
  intro accounts hne
  match accounts with
  | [] => exact absurd rfl hne
  | a :: rest =>
    have hrows : ∀ l : List AccountSignals,
        accountsRows l = String.join (l.map renderAccountRow) := by
      intro l
      induction l with
      | nil => rfl
      | cons x xs ih => simp only [accountsRows, List.map_cons, join_cons, ih]
    have hne' := accountsRows_cons_ne_empty a rest
    unfold tbodyContent
    rw [if_pos hne']
    exact hrows _

/-- C7 witness: the non-empty part of the theorem applied to a singleton
pool. -/
theorem C7_empty_pool_placeholder_witness :
    tbodyContent [sampleSignals] =
      String.join ([sampleSignals].map renderAccountRow) :=
  C7_empty_pool_placeholder.2 [sampleSignals] (by simp)

/-- Whether a string ends in a slash character. -/
def endsInSlash (s : String) : Bool :=
  s.data.getLast? == some '/'

/-- Stripping trailing slashes from a string that was just extended by a
single "/" recovers the string, provided it did not itself end in a
slash. -/
theorem rstripSlash_append_slash (s : String) (h : endsInSlash s = false) :
    rstripSlash (s ++ "/") = s := by
  have hlast : s.data.getLast? ≠ some '/' := by
    intro hc
    simp [endsInSlash, hc] at h
  show String.mk (((s ++ "/").data.reverse.dropWhile (fun c => c = '/')).reverse) = s
  rw [String.data_append]
  have hd : ("/" : String).data = ['/'] := rfl
  rw [hd, List.reverse_append]
  have hdrop : List.dropWhile (fun c => decide (c = '/')) s.data.reverse
      = s.data.reverse := by
    cases hrev : s.data.reverse with
    | nil => rfl
    | cons c cs =>
      have hc : c ≠ '/' := by
        intro hcc
        apply hlast
        rw [← List.head?_reverse, hrev, hcc]
        rfl
      simp [List.dropWhile_cons, hc]
  have hcons : List.dropWhile (fun c => decide (c = '/')) ('/' :: s.data.reverse)
      = List.dropWhile (fun c => decide (c = '/')) s.data.reverse := by
    simp [List.dropWhile_cons]
  simp only [List.reverse_cons, List.reverse_nil, List.nil_append,
    List.singleton_append]
  rw [hcons, hdrop, List.reverse_reverse]

/-- C9: for every path prefix not ending in "/" (including the empty
prefix), the derived endpoints compose: `api_base_v1` is `api_base_url`
plus "/v1", `api_endpoint` is `api_base_v1` plus "/chat/completions",
and `api_base_url` is the resolved `current_url` for the empty prefix
and `current_url` + "/" + prefix otherwise. -/
theorem C9_endpoint_composition (current_url path_pfx : String)
    (h : endsInSlash path_pfx = false) :
    api_base_v1 current_url path_pfx =
      api_base_url current_url path_pfx ++ "/v1"
    ∧ api_endpoint current_url path_pfx =
      api_base_v1 current_url path_pfx ++ "/chat/completions"
    ∧ (path_pfx = "" → api_base_url current_url path_pfx = current_url)
    ∧ (path_pfx ≠ "" →
      api_base_url current_url path_pfx = current_url ++ "/" ++ path_pfx) := by
  have hv : ("/" : String) ++ "v1" = "/v1" := rfl
  have hvc : ("v1" : String) ++ "/chat/completions" = "v1/chat/completions" := rfl
  by_cases hp : path_pfx = ""
  · subst hp
    refine ⟨?_, ?_, fun _ => by simp [api_base_url, api_path_segment],
      fun hne => absurd rfl hne⟩
    · simp [api_base_v1, api_base_url, api_path_segment,
        String.append_assoc, hv]
    · simp [api_endpoint, api_base_v1, api_path_segment,
        String.append_assoc, hvc]
  · have hseg : api_path_segment path_pfx = path_pfx ++ "/" := by
      simp [api_path_segment, hp]
    have hsegne : path_pfx ++ "/" ≠ "" := by
      intro hc
      have hlen := congrArg String.length hc
      rw [String.length_append] at hlen
      have h1 : ("/" : String).length = 1 := by decide
      have h2 : ("" : String).length = 0 := by decide
      omega
    have hbase : api_base_url current_url path_pfx =
        current_url ++ "/" ++ path_pfx := by
      unfold api_base_url
      rw [hseg, if_pos hsegne, rstripSlash_append_slash path_pfx h]
    refine ⟨?_, ?_, fun he => absurd he hp, fun _ => hbase⟩
    · unfold api_base_v1
      rw [hseg, hbase]
      simp [String.append_assoc, hv]
    · unfold api_endpoint api_base_v1
      rw [hseg]
      simp [String.append_assoc, hvc]

/-- C9 witness: the composition at the concrete prefix "api". -/
theorem C9_endpoint_composition_witness :
    api_base_v1 "http://h" "api" = api_base_url "http://h" "api" ++ "/v1"
    ∧ api_endpoint "http://h" "api" =
      api_base_v1 "http://h" "api" ++ "/chat/completions" := by
  have hw := C9_endpoint_composition "http://h" "api" (by decide)
  exact ⟨hw.1, hw.2.1⟩

end TemplateHelpers
